import Mathlib

/-!
Shallow embedding of `chat.py` (an Azure-backed voice assistant) for checking
its natural-language specification.

The file models, directly from the source:
* the configuration record `AzureConfig` and the truthiness check of
  `VoiceAssistant._validate_config` (lines 58-66);
* `VoiceAssistant.__init__` (lines 50-56) as a function returning either the
  initial assistant state or the configuration error, together with the list
  of client-initialization events that actually ran;
* the continuous-listening worker loop of `listen_continuous` (lines 104-113)
  as a small-step transition function `workerStep` on the assistant state;
* `stop_listening` (lines 130-136), including the `AttributeError` raised when
  the `audio_stream` attribute was never created;
* `_process_audio_chunk` (lines 115-128) as a function from the cloud
  recognition result to the optional callback invocation;
* `translate_text` (lines 138-149), parameterized by the outcome of the cloud
  translate call (success payload, `AzureError`, or any other exception);
* `synthesize_speech` (lines 151-159), parameterized by the completion reason;
* `AssistantGUI.process_transcript` (lines 274-295) as a function producing
  the ordered list of observable events (transcript inserts, service calls,
  log lines).

Exceptions are modelled with `Except`: a `.error` result is a raised Python
exception propagating out of the modelled function.
-/

namespace Chat

/-- One captured audio frame: a block of signed 16-bit samples (`dtype=np.int16`). -/
abbrev AudioFrame := List Int

/-- The `speechsdk.ResultReason` values that `chat.py` inspects, plus
representative non-success values. -/
inductive ResultReason
  | recognizedSpeech
  | noMatch
  | canceled
  | synthesizingAudioCompleted
  | synthesisCanceled
  deriving DecidableEq

/-- String rendering of a reason, as Python would interpolate it into
an f-string. -/
def reasonStr : ResultReason → String
  | ResultReason.recognizedSpeech => "ResultReason.RecognizedSpeech"
  | ResultReason.noMatch => "ResultReason.NoMatch"
  | ResultReason.canceled => "ResultReason.Canceled"
  | ResultReason.synthesizingAudioCompleted => "ResultReason.SynthesizingAudioCompleted"
  | ResultReason.synthesisCanceled => "ResultReason.SynthesisCanceled"

/-- `AzureConfig` dataclass (lines 38-45). Fields are `Option String` because
`load_config` (lines 301-308) fills them from `os.getenv`, which yields `None`
when the variable is absent. -/
structure AzureConfig where
  speech_key : Option String
  speech_region : Option String
  translator_key : Option String
  translator_region : Option String
  translator_endpoint : String := "https://api.cognitive.microsofttranslator.com"
  deriving DecidableEq

/-- Python truthiness of an optional string: `None` and `""` are falsy,
every non-empty string is truthy. -/
def truthy : Option String → Bool
  | none => false
  | some s => s ≠ ""

/-- `VoiceAssistant._validate_config` (lines 58-66): raises
`ValueError("Invalid Azure configuration")` unless all four credential/region
fields are truthy. -/
def validate_config (c : AzureConfig) : Except String Unit :=
  if truthy c.speech_key && truthy c.speech_region &&
     truthy c.translator_key && truthy c.translator_region
  then Except.ok () else Except.error "Invalid Azure configuration"

/-- Phase of the `process_audio` worker loop (lines 104-110):
at the `while self.is_listening` check, blocked in
`audio_queue.get(timeout=1)`, inside `_process_audio_chunk`, or exited. -/
inductive WorkerPhase
  | checkFlag
  | polling
  | processing (frame : AudioFrame)
  | done
  deriving DecidableEq

/-- The `sounddevice.InputStream` object created by `listen_continuous`. -/
structure AudioStream where
  samplerate : Nat
  running : Bool
  deriving DecidableEq

/-- Mutable state of a `VoiceAssistant` object. `audio_stream` and
`processing_thread` are `Option`s because those attributes only exist after
`listen_continuous` has run (they are not set in `__init__`, lines 50-56);
`none` models the absent attribute. -/
structure VAState where
  config : AzureConfig
  audio_queue : List AudioFrame
  is_listening : Bool
  sample_rate : Nat
  audio_stream : Option AudioStream
  processing_thread : Option WorkerPhase
  deriving DecidableEq

/-- Observable steps of `VoiceAssistant.__init__`: the validation and the two
Azure client constructions of `_init_clients` (lines 68-86). Any network
traffic could only happen during the client-construction events. -/
inductive InitEvent
  | validated
  | speech_client_init
  | translator_client_init
  deriving DecidableEq

/-- `VoiceAssistant.__init__` (lines 50-56): `_validate_config` runs first;
only if it passes does `_init_clients` construct the service clients, after
which the queue, flag and sample rate are set. Returns the events that ran
and either the created state or the raised error. -/
def VoiceAssistant.init (c : AzureConfig) : List InitEvent × Except String VAState :=
  match validate_config c with
  | Except.error e => ([], Except.error e)
  | Except.ok () =>
    ([InitEvent.validated, InitEvent.speech_client_init, InitEvent.translator_client_init],
     Except.ok { config := c, audio_queue := [], is_listening := false,
                 sample_rate := 48000, audio_stream := none, processing_thread := none })

/-- `listen_continuous` (lines 88-113): sets the listening flag, creates and
starts the input stream, and starts the worker thread at the top of its loop. -/
def listen_continuous (s : VAState) : VAState :=
  { s with is_listening := true,
           audio_stream := some { samplerate := s.sample_rate, running := true },
           processing_thread := some WorkerPhase.checkFlag }

/-- One small step of the `process_audio` worker loop (lines 104-110):
`while self.is_listening:` checks the flag; `audio_queue.get(timeout=1)`
either times out on an empty queue (the `queue.Empty` branch continues the
loop) or dequeues a frame; `_process_audio_chunk` then returns to the check. -/
def workerStep (s : VAState) : VAState :=
  match s.processing_thread with
  | none => s
  | some WorkerPhase.checkFlag =>
      if s.is_listening
      then { s with processing_thread := some WorkerPhase.polling }
      else { s with processing_thread := some WorkerPhase.done }
  | some WorkerPhase.polling =>
      match s.audio_queue with
      | [] => { s with processing_thread := some WorkerPhase.checkFlag }
      | f :: rest =>
          { s with audio_queue := rest,
                   processing_thread := some (WorkerPhase.processing f) }
  | some (WorkerPhase.processing _) => { s with processing_thread := some WorkerPhase.checkFlag }
  | some WorkerPhase.done => s

/-- A worker state observed inside a queue poll that is about to time out:
blocked in `get(timeout=1)` on an empty queue. -/
def timedOutPoll (s : VAState) : Bool :=
  s.processing_thread = some WorkerPhase.polling && s.audio_queue.isEmpty

/-- Python exceptions distinguished by the model. -/
inductive PyExc
  | attributeError (name : String)
  deriving DecidableEq

/-- `stop_listening` (lines 130-136): clears the flag, then evaluates
`if self.audio_stream:` — an `AttributeError` if the attribute was never
created — stops the stream, and likewise reads `self.processing_thread`
before joining it. The returned state is the one the join then waits on;
the worker-side termination is stated over `workerStep`. -/
def stop_listening (s : VAState) : Except PyExc VAState :=
  let s1 := { s with is_listening := false }
  match s1.audio_stream with
  | none => Except.error (PyExc.attributeError "audio_stream")
  | some strm =>
    let s2 := { s1 with audio_stream := some { strm with running := false } }
    match s2.processing_thread with
    | none => Except.error (PyExc.attributeError "processing_thread")
    | some _ => Except.ok s2

/-- A one-shot cloud recognition result: `result.reason` and `result.text`. -/
structure RecognitionResult where
  reason : ResultReason
  text : String
  deriving DecidableEq

/-- `_process_audio_chunk` (lines 115-128), viewed from its only observable
effect: `some t` means `callback(result.text)` was invoked with `t`; `none`
means the chunk was dropped without invoking the callback. The function is
total: no exception is raised on a non-success reason. -/
def process_audio_chunk (result : RecognitionResult) : Option String :=
  if result.reason = ResultReason.recognizedSpeech then some result.text else none

/-- Modelled from the spec: the fixed "not understood" sentinel text that
section 8 of the specification attributes to the recognition bridge; no such
string occurs anywhere in `src/chat.py` (it belongs to the second,
near-duplicate variant the spec mentions, which is not in `src/`). -/
def sentinelText : String := "Sorry, I didn't catch that."

/-- One translation of the Azure translate response: `.text` and `.to`. -/
structure TranslationItem where
  text : String
  «to» : String
  deriving DecidableEq

/-- One entry of the translate response list: its `.translations` list. -/
structure TranslationEntry where
  translations : List TranslationItem
  deriving DecidableEq

/-- Outcome of a synchronous cloud SDK call: a returned payload, a raised
`azure.core.exceptions.AzureError` with message `msg`, or any other raised
exception with message `msg`. -/
inductive CloudOutcome (α : Type)
  | ok (val : α)
  | azureError (msg : String)
  | otherError (msg : String)
  deriving DecidableEq

/-- `translate_text` (lines 138-149), parameterized by the outcome of
`self.translator_client.translate(...)`. On a returned response it evaluates
`response[0].translations[0]` (an `IndexError` — not an `AzureError` — if
either list is empty, which propagates) and returns
`(translation.text, translation.to)`. Only `AzureError` is caught, yielding
`(None, str(e))`; any other exception propagates as `.error`. -/
def translate_text (call : CloudOutcome (List TranslationEntry)) :
    Except String (Option String × String) :=
  match call with
  | CloudOutcome.ok response =>
    match response with
    | [] => Except.error "IndexError: list index out of range"
    | entry :: _ =>
      match entry.translations with
      | [] => Except.error "IndexError: list index out of range"
      | tr :: _ => Except.ok (some tr.text, tr.«to»)
  | CloudOutcome.azureError msg => Except.ok (none, msg)
  | CloudOutcome.otherError msg => Except.error msg

/-- `synthesize_speech` (lines 151-159), parameterized by
`result.reason` of the `speak_text_async(text).get()` call: raises
`RuntimeError(f"Speech synthesis failed: {result.reason}")` exactly when the
reason is not `SynthesizingAudioCompleted`. -/
def synthesize_speech (reason : ResultReason) : Except String Unit :=
  if reason = ResultReason.synthesizingAudioCompleted
  then Except.ok ()
  else Except.error ("Speech synthesis failed: " ++ reasonStr reason)

/-- Observable events of `AssistantGUI.process_transcript`:
`conversation.insert` of a `"{speaker}: {text}\n"` line, the call into
`translate_text`, the call into `synthesize_speech` with the text it is asked
to speak, and a `logging.error` line. -/
inductive ProcEvent
  | insertEntry (speaker : String) (text : String)
  | translateCall (text : String) (target : String)
  | synthCall (text : String)
  | logError (msg : String)
  deriving DecidableEq

/-- The rendered transcript line for an inserted entry:
`f"{speaker}: {text}\n"` (lines 277, 288, 292). -/
def renderLine (speaker text : String) : String := speaker ++ ": " ++ text ++ "\n"

/-- Environment of one `process_transcript` run: the outcome of the cloud
translate call, the completion reason of the synthesis call, and whether the
`conversation.insert` of the assistant line raises (`some msg`) or
succeeds (`none`). -/
structure ProcEnv where
  translateOutcome : CloudOutcome (List TranslationEntry)
  synthReason : ResultReason
  appendExc : Option String
  deriving DecidableEq

/-- Python `str()` of an `Optional[str]` as interpolated by an f-string:
`None` prints as `"None"`. -/
def pyStrOpt : Option String → String
  | none => "None"
  | some s => s

/-- `AssistantGUI.process_transcript` (lines 274-295) as the ordered list of
its observable events. The user line is inserted first; inside the
`try`: `translate_text` is called, `response` is the f-string
`f"Processed in {target_lang}: {translated}"` (with no check that
`translated` is not `None`), `synthesize_speech(response)` runs, then the
assistant line is inserted. `except Exception` logs
`f"Processing error: {e}"` and inserts a `System Error` line instead. -/
def process_transcript (env : ProcEnv) (transcript : String) (output_lang : String) :
    List ProcEvent :=
  ProcEvent.insertEntry "User" transcript ::
  ProcEvent.translateCall transcript output_lang ::
  match translate_text env.translateOutcome with
  | Except.error e =>
      [ProcEvent.logError ("Processing error: " ++ e),
       ProcEvent.insertEntry "System Error" e]
  | Except.ok (translated, target_lang) =>
      let response := "Processed in " ++ target_lang ++ ": " ++ pyStrOpt translated
      ProcEvent.synthCall response ::
      match synthesize_speech env.synthReason with
      | Except.error e =>
          [ProcEvent.logError ("Processing error: " ++ e),
           ProcEvent.insertEntry "System Error" e]
      | Except.ok () =>
          match env.appendExc with
          | some e =>
              [ProcEvent.logError ("Processing error: " ++ e),
               ProcEvent.insertEntry "System Error" e]
          | none => [ProcEvent.insertEntry "Assistant" response]

/-- Events of `process_transcript` that are the three processing steps of the
pipeline: the translation call, the synthesis call, and the assistant-side
transcript append. -/
def isCoreStep : ProcEvent → Bool
  | ProcEvent.translateCall _ _ => true
  | ProcEvent.synthCall _ => true
  | ProcEvent.insertEntry speaker _ => speaker == "Assistant"
  | ProcEvent.logError _ => false

/-- The subsequence of core pipeline steps of an event trace, in order. -/
def coreSteps (l : List ProcEvent) : List ProcEvent := l.filter isCoreStep

/-- The exception (if any) raised inside the `try` block of one
`process_transcript` run, following the order of the code: a propagating
exception of `translate_text`, else a synthesis failure, else a failing
assistant-line insert. -/
def runException (env : ProcEnv) : Option String :=
  match translate_text env.translateOutcome with
  | Except.error e => some e
  | Except.ok _ =>
    match synthesize_speech env.synthReason with
    | Except.error e => some e
    | Except.ok () => env.appendExc

/-- `n` small steps of the worker loop. -/
def workerSteps : Nat → VAState → VAState
  | 0, s => s
  | n + 1, s => workerSteps n (workerStep s)

/-- A run environment in which the cloud translate call raises an
`AzureError` with message `"boom"` and synthesis would succeed. -/
def envAzureFail : ProcEnv :=
  { translateOutcome := CloudOutcome.azureError "boom",
    synthReason := ResultReason.synthesizingAudioCompleted,
    appendExc := none }

/-- A run environment in which translation returns `("hola", "es")` and
synthesis succeeds. -/
def envHola : ProcEnv :=
  { translateOutcome := CloudOutcome.ok [{ translations := [{ text := "hola", «to» := "es" }] }],
    synthReason := ResultReason.synthesizingAudioCompleted,
    appendExc := none }

/-- A run environment in which translation returns `("bonjour", "fr")` and
the synthesis completion reason is a cancellation. -/
def envSynthFail : ProcEnv :=
  { translateOutcome := CloudOutcome.ok [{ translations := [{ text := "bonjour", «to» := "fr" }] }],
    synthReason := ResultReason.synthesisCanceled,
    appendExc := none }

/-- A run environment in which translation returns `("salut", "fr")` and
the synthesis completion reason is a cancellation. -/
def envSynthFail2 : ProcEnv :=
  { translateOutcome := CloudOutcome.ok [{ translations := [{ text := "salut", «to» := "fr" }] }],
    synthReason := ResultReason.synthesisCanceled,
    appendExc := none }

/-- A configuration with all four required fields present and non-empty. -/
def cValid : AzureConfig :=
  { speech_key := some "sk", speech_region := some "sr",
    translator_key := some "tk", translator_region := some "tr" }

/-- A configuration whose speech key is absent (`os.getenv` returned `None`). -/
def cMissing : AzureConfig :=
  { speech_key := none, speech_region := some "sr",
    translator_key := some "tk", translator_region := some "tr" }

/-- A configuration whose translator region is the empty string. -/
def cEmptyField : AzureConfig :=
  { speech_key := some "sk", speech_region := some "sr",
    translator_key := some "tk", translator_region := some "" }

/-- The assistant state right after a successful `__init__` on `cValid`. -/
def stFresh : VAState :=
  { config := cValid, audio_queue := [], is_listening := false,
    sample_rate := 48000, audio_stream := none, processing_thread := none }

/-- The assistant state right after `listen_continuous` on a fresh assistant. -/
def sListen : VAState := listen_continuous stFresh

/-- C1: when the cloud translate call raises an `AzureError`, `translate_text`
does return `(None, message)`; but `process_transcript` performs no `None`
check and still proceeds to call `synthesize_speech` — with the degenerate
text `"Processed in boom: None"`, where the error message stands in the
language slot and the `None` result is interpolated as `"None"` — and then
appends it as an assistant line. This evaluates the code at the failing
input of the claim. -/
theorem azure_translate_error_still_reaches_synthesis :
    translate_text (CloudOutcome.azureError "boom") = Except.ok (none, "boom") ∧
    process_transcript envAzureFail "hello" "es" =
      [ProcEvent.insertEntry "User" "hello",
       ProcEvent.translateCall "hello" "es",
       ProcEvent.synthCall "Processed in boom: None",
       ProcEvent.insertEntry "Assistant" "Processed in boom: None"] :=
  ⟨rfl, rfl⟩

/-- C2 (counterexample): on a recognition result with a non-success reason,
`_process_audio_chunk` invokes no callback at all — it produces `none`, not
the "not understood" sentinel text the claim asserts. -/
theorem nonsuccess_chunk_returns_no_text :
    process_audio_chunk { reason := ResultReason.noMatch, text := "" } = none ∧
    process_audio_chunk { reason := ResultReason.noMatch, text := "" } ≠ some sentinelText := by
  constructor
  · rfl
  · intro h
    simp [process_audio_chunk] at h

/-- C2 (amended): for every recognition result whose reason is not
`RecognizedSpeech`, `_process_audio_chunk` silently drops the chunk: the
callback is not invoked, no sentinel or other text is produced, and no
exception is raised (the function is total). -/
theorem nonsuccess_chunk_drops_silently (r : RecognitionResult)
    (h : r.reason ≠ ResultReason.recognizedSpeech) :
    process_audio_chunk r = none := by
  simp [process_audio_chunk, h]

/-- C2 (witness): the amended theorem applied to a concrete cancelled
recognition result. -/
theorem nonsuccess_chunk_drops_silently_witness :
    ({ reason := ResultReason.canceled, text := "x" } : RecognitionResult).reason ≠
      ResultReason.recognizedSpeech ∧
    process_audio_chunk { reason := ResultReason.canceled, text := "x" } = none :=
  ⟨by decide,
   nonsuccess_chunk_drops_silently { reason := ResultReason.canceled, text := "x" } (by decide)⟩

/-- C3: for the transcript `"hello"` with the translation step returning
`("hola", "es")` and synthesis succeeding, the assistant-side transcript
entry carries exactly the text `"Processed in es: hola"`, rendered on screen
as the line `"Assistant: Processed in es: hola\n"`. -/
theorem hello_transcript_shows_processed_in_es_hola :
    process_transcript envHola "hello" "es" =
      [ProcEvent.insertEntry "User" "hello",
       ProcEvent.translateCall "hello" "es",
       ProcEvent.synthCall "Processed in es: hola",
       ProcEvent.insertEntry "Assistant" "Processed in es: hola"] ∧
    renderLine "Assistant" "Processed in es: hola" = "Assistant: Processed in es: hola\n" :=
  ⟨rfl, rfl⟩

/-- C9: `translate_text` converts exactly the `AzureError` case into the
`(None, message)` result; any other exception raised by the translate call
propagates to the caller instead. -/
theorem translate_text_catches_only_azure_errors :
    (∀ msg : String, translate_text (CloudOutcome.azureError msg) = Except.ok (none, msg)) ∧
    (∀ msg : String, translate_text (CloudOutcome.otherError msg) = Except.error msg) :=
  ⟨fun _ => rfl, fun _ => rfl⟩

/-- C5: if any of the four required credential/region fields is missing
(`None`), constructing the assistant raises the configuration error
`ValueError("Invalid Azure configuration")` and the event list is empty:
validation failed before `_init_clients`, so no service client was
constructed and no network call was performed. -/
theorem missing_config_fails_before_clients (c : AzureConfig)
    (h : c.speech_key = none ∨ c.speech_region = none ∨
         c.translator_key = none ∨ c.translator_region = none) :
    VoiceAssistant.init c = ([], Except.error "Invalid Azure configuration") := by
  unfold VoiceAssistant.init validate_config
  rcases h with h | h | h | h <;> simp [h, truthy]

/-- C5 (witness): the theorem applied to a configuration whose speech key is
absent. -/
theorem missing_config_fails_before_clients_witness :
    cMissing.speech_key = none ∧
    VoiceAssistant.init cMissing = ([], Except.error "Invalid Azure configuration") :=
  ⟨rfl, missing_config_fails_before_clients cMissing (Or.inl rfl)⟩

/-- C8: a present-but-empty credential string is treated exactly like a
missing one — Python truthiness makes `""` falsy — so construction fails
with the very same configuration error, again before any client is
initialized. -/
theorem empty_config_string_like_missing (c : AzureConfig)
    (h : c.speech_key = some "" ∨ c.speech_region = some "" ∨
         c.translator_key = some "" ∨ c.translator_region = some "") :
    VoiceAssistant.init c = ([], Except.error "Invalid Azure configuration") := by
  unfold VoiceAssistant.init validate_config
  rcases h with h | h | h | h <;> simp [h, truthy]

/-- C8 (witness): the theorem applied to a configuration whose translator
region is the empty string. -/
theorem empty_config_string_like_missing_witness :
    cEmptyField.translator_region = some "" ∧
    VoiceAssistant.init cEmptyField = ([], Except.error "Invalid Azure configuration") :=
  ⟨rfl, empty_config_string_like_missing cEmptyField (Or.inr (Or.inr (Or.inr rfl)))⟩

/-- C10: on an assistant fresh out of `__init__` — on which
`listen_continuous` was never called — `stop_listening` raises an
`AttributeError` for `audio_stream` (the attribute is only created by
`listen_continuous`), rather than returning as a no-op. -/
theorem stop_without_listen_raises_attribute_error (c : AzureConfig) (st : VAState)
    (h : (VoiceAssistant.init c).2 = Except.ok st) :
    stop_listening st = Except.error (PyExc.attributeError "audio_stream") := by
  unfold VoiceAssistant.init at h
  cases hv : validate_config c with
  | error e =>
      rw [hv] at h
      simp at h
  | ok u =>
      cases u
      rw [hv] at h
      simp only [Except.ok.injEq] at h
      subst h
      rfl

/-- C10 (witness): the theorem applied to the concrete assistant built from
the valid configuration `cValid`. -/
theorem stop_without_listen_raises_attribute_error_witness :
    (VoiceAssistant.init cValid).2 = Except.ok stFresh ∧
    stop_listening stFresh = Except.error (PyExc.attributeError "audio_stream") :=
  ⟨rfl, stop_without_listen_raises_attribute_error cValid stFresh rfl⟩

/-- C4: with listening started (stream and worker attributes present) and the
frame queue empty — stopping right after starting — `stop_listening` flips
the flag to false and reaches the join; from any worker phase the loop then
reaches `done` within three small steps, during which at most one queue poll
times out (the single timed-out `get(timeout=1)`), so the join returns; and
the listening flag is false afterwards. -/
theorem stop_listening_terminates_worker (s : VAState) (strm : AudioStream) (ph : WorkerPhase)
    (hq : s.audio_queue = []) (hstream : s.audio_stream = some strm)
    (hth : s.processing_thread = some ph) :
    ∃ s2, stop_listening s = Except.ok s2 ∧
      s2.is_listening = false ∧
      (workerSteps 3 s2).processing_thread = some WorkerPhase.done ∧
      (workerSteps 3 s2).is_listening = false ∧
      ((List.range 3).filter (fun i => timedOutPoll (workerSteps i s2))).length ≤ 1 := by
  refine ⟨{ s with is_listening := false,
                   audio_stream := some { strm with running := false } }, ?_, rfl, ?_, ?_, ?_⟩
  · simp [stop_listening, hstream, hth]
  · cases ph <;> simp [workerSteps, workerStep, hq, hth]
  · cases ph <;> simp [workerSteps, workerStep, hq, hth]
  · cases ph <;> simp [List.range_succ, workerSteps, workerStep, timedOutPoll, hq, hth]

/-- C4 (witness): the theorem applied to the concrete assistant on which
`listen_continuous` just ran and nothing was enqueued yet. -/
theorem stop_listening_terminates_worker_witness :
    ∃ s2, stop_listening sListen = Except.ok s2 ∧
      s2.is_listening = false ∧
      (workerSteps 3 s2).processing_thread = some WorkerPhase.done ∧
      (workerSteps 3 s2).is_listening = false ∧
      ((List.range 3).filter (fun i => timedOutPoll (workerSteps i s2))).length ≤ 1 :=
  stop_listening_terminates_worker sListen { samplerate := 48000, running := true }
    WorkerPhase.checkFlag rfl rfl rfl

/-- C6: in every run of `process_transcript`, the pipeline steps occur in
strict sequence — the translation call, then (if reached) the synthesis call,
then (if reached) the assistant-side transcript append, the synthesis always
speaking the very text later appended; and whenever an exception is raised at
any step inside the `try` block, the run still completes, logs
`"Processing error: ..."`, and ends with an inline `System Error` transcript
entry instead of crashing. -/
theorem process_transcript_sequence_and_error_handling (env : ProcEnv) (t lang : String) :
    (∃ r, coreSteps (process_transcript env t lang) = [ProcEvent.translateCall t lang] ∨
          coreSteps (process_transcript env t lang) =
            [ProcEvent.translateCall t lang, ProcEvent.synthCall r] ∨
          coreSteps (process_transcript env t lang) =
            [ProcEvent.translateCall t lang, ProcEvent.synthCall r,
             ProcEvent.insertEntry "Assistant" r]) ∧
    (∀ e, runException env = some e →
        (process_transcript env t lang).getLast? =
          some (ProcEvent.insertEntry "System Error" e) ∧
        ProcEvent.logError ("Processing error: " ++ e) ∈ process_transcript env t lang) := by
  constructor
  · cases htr : translate_text env.translateOutcome with
    | error e =>
        refine ⟨"", Or.inl ?_⟩
        simp [process_transcript, coreSteps, htr, isCoreStep]
    | ok p =>
        obtain ⟨translated, target⟩ := p
        cases hsy : synthesize_speech env.synthReason with
        | error e =>
            refine ⟨"Processed in " ++ target ++ ": " ++ pyStrOpt translated,
                    Or.inr (Or.inl ?_)⟩
            simp [process_transcript, coreSteps, htr, hsy, isCoreStep]
        | ok u =>
            cases u
            cases hap : env.appendExc with
            | some e =>
                refine ⟨"Processed in " ++ target ++ ": " ++ pyStrOpt translated,
                        Or.inr (Or.inl ?_)⟩
                simp [process_transcript, coreSteps, htr, hsy, hap, isCoreStep]
            | none =>
                refine ⟨"Processed in " ++ target ++ ": " ++ pyStrOpt translated,
                        Or.inr (Or.inr ?_)⟩
                simp [process_transcript, coreSteps, htr, hsy, hap, isCoreStep]
  · intro e he
    unfold runException at he
    cases htr : translate_text env.translateOutcome with
    | error e0 =>
        rw [htr] at he
        simp at he
        subst he
        constructor
        · simp [process_transcript, htr]
        · simp [process_transcript, htr]
    | ok p =>
        obtain ⟨translated, target⟩ := p
        rw [htr] at he
        cases hsy : synthesize_speech env.synthReason with
        | error e0 =>
            rw [hsy] at he
            simp at he
            subst he
            constructor
            · simp [process_transcript, htr, hsy]
            · simp [process_transcript, htr, hsy]
        | ok u =>
            cases u
            rw [hsy] at he
            simp at he
            constructor
            · simp [process_transcript, htr, hsy, he]
            · simp [process_transcript, htr, hsy, he]

/-- C6 (witness): the theorem applied at a concrete run whose synthesis step
fails: the trace ends with the inline `System Error` entry carrying the
synthesis error message. -/
theorem process_transcript_sequence_and_error_handling_witness :
    runException envSynthFail = some "Speech synthesis failed: ResultReason.SynthesisCanceled" ∧
    (process_transcript envSynthFail "hello" "fr").getLast? =
      some (ProcEvent.insertEntry "System Error"
        "Speech synthesis failed: ResultReason.SynthesisCanceled") :=
  ⟨rfl,
   ((process_transcript_sequence_and_error_handling envSynthFail "hello" "fr").2
      "Speech synthesis failed: ResultReason.SynthesisCanceled" rfl).1⟩

/-- C7: `synthesize_speech` raises exactly when the completion reason is not
`SynthesizingAudioCompleted`; and when it does raise inside a
`process_transcript` run (translation having returned normally), the GUI
caller catches the error — the run completes with an inline `System Error`
entry and a log line instead of propagating the exception. -/
theorem synthesize_speech_raises_iff_not_completed :
    (∀ r : ResultReason,
        (∃ e, synthesize_speech r = Except.error e) ↔
          r ≠ ResultReason.synthesizingAudioCompleted) ∧
    (∀ (env : ProcEnv) (t lang : String) (p : Option String × String) (e : String),
        translate_text env.translateOutcome = Except.ok p →
        synthesize_speech env.synthReason = Except.error e →
        (process_transcript env t lang).getLast? =
          some (ProcEvent.insertEntry "System Error" e) ∧
        ProcEvent.logError ("Processing error: " ++ e) ∈ process_transcript env t lang) := by
  constructor
  · intro r
    constructor
    · rintro ⟨e, he⟩ hr
      rw [hr] at he
      simp [synthesize_speech] at he
    · intro hr
      exact ⟨"Speech synthesis failed: " ++ reasonStr r, by simp [synthesize_speech, hr]⟩
  · intro env t lang p e htr hsy
    obtain ⟨translated, target⟩ := p
    constructor
    · simp [process_transcript, htr, hsy]
    · simp [process_transcript, htr, hsy]

/-- C7 (witness): the theorem applied at a concrete cancelled synthesis run. -/
theorem synthesize_speech_raises_iff_not_completed_witness :
    (process_transcript envSynthFail2 "hey" "fr").getLast? =
      some (ProcEvent.insertEntry "System Error"
        "Speech synthesis failed: ResultReason.SynthesisCanceled") :=
  (synthesize_speech_raises_iff_not_completed.2 envSynthFail2 "hey" "fr"
    (some "salut", "fr") "Speech synthesis failed: ResultReason.SynthesisCanceled"
    rfl rfl).1

end Chat
